import Mathlib

/-!
Shallow embedding of the conversation-session controller in
`src/streamlit_chat_branch.py`.

The script keeps per-session UI state in `st.session_state` and talks to a
remote conversation service over HTTP.  We embed the session state as a
structure, and every HTTP round-trip as an explicit oracle argument: `none`
models a raised `requests` exception (caught and reported via `st.error`),
`some r` models the parsed `data` dict of a 2xx response.  Python dict and
string truthiness is modelled explicitly.
-/

/-- Chat message role (the `role` key of a message dict). -/
inductive Role where
  | user
  | assistant
deriving DecidableEq, Repr

/-- A chat message dict: `{"role": ..., "content": ...}`. -/
structure Message where
  role : Role
  content : String
deriving DecidableEq, Repr

/-- A conversation summary from the list endpoint: `{id, title, message_count}`. -/
structure ConvSummary where
  id : String
  title : Option String
  message_count : Nat
deriving DecidableEq, Repr

/-- The per-session state kept in `st.session_state` by `init_state`
(`src/streamlit_chat_branch.py:76-94`). -/
structure SessionState where
  client_id : String
  branch_id : String
  user_id : String
  current_conversation_id : Option String
  messages : List Message
  conversations_list : List ConvSummary
  conversations_loaded : Bool
deriving DecidableEq, Repr

/-- Python truthiness of `st.session_state.current_conversation_id` (an
optional string): `None` and the empty string are falsy. -/
def pyTruthy : Option String → Bool
  | none => false
  | some s => !s.isEmpty

@[simp] theorem pyTruthy_none : pyTruthy none = false := rfl

@[simp] theorem pyTruthy_some (s : String) : pyTruthy (some s) = !s.isEmpty := rfl

/-- The parsed `data` dict returned by `start_new_conversation` and
`continue_conversation` (`src/streamlit_chat_branch.py:123-160`).
`conversation_id`/`response` model `result.get(key)` (which yields `None`
when the key is absent or its value is JSON null); `extraTruthy` records
whether the dict holds any further key, so that Python dict truthiness is
captured exactly. -/
structure StartData where
  conversation_id : Option String
  response : Option String
  extraTruthy : Bool
deriving DecidableEq, Repr

/-- Python truthiness of the `data` dict (`if result:`): non-empty dict. -/
def StartData.truthy (r : StartData) : Bool :=
  r.conversation_id.isSome || r.response.isSome || r.extraTruthy

/-- The one HTTP mutation issued by `process_message`, with its payload
fields as the source builds them. -/
inductive SentCall where
  | startConv (user_id message client_id branch_id : String)
  | continueConv (conversation_id message : String)
deriving DecidableEq, Repr

/-- Result of one `process_message` run: the updated session state, the two
returned values, which HTTP call was made, and whether `st.error` fired. -/
structure ProcessResult where
  state : SessionState
  response : Option String
  conv_id : Option String
  sent : SentCall
  errorReported : Bool
deriving DecidableEq, Repr

/-- `process_message` (`src/streamlit_chat_branch.py:246-264`): continue the
current conversation when `current_conversation_id` is truthy, otherwise
start a new one (adopting the returned `conversation_id` into the state);
on a falsy result fall through to `return None, None`.  `oracle` is the
HTTP outcome: `none` = exception (error reported by the callee), `some r`
= the parsed `data` dict. -/
def process_message (s : SessionState) (message : String)
    (oracle : Option StartData) : ProcessResult :=
  if pyTruthy s.current_conversation_id then
    let sent := SentCall.continueConv (s.current_conversation_id.getD "") message
    match oracle with
    | none => ⟨s, none, none, sent, true⟩
    | some r =>
      if r.truthy then ⟨s, r.response, r.conversation_id, sent, false⟩
      else ⟨s, none, none, sent, false⟩
  else
    let sent := SentCall.startConv s.user_id message s.client_id s.branch_id
    match oracle with
    | none => ⟨s, none, none, sent, true⟩
    | some r =>
      if r.truthy then
        ⟨{ s with current_conversation_id := r.conversation_id },
          r.response, r.conversation_id, sent, false⟩
      else ⟨s, none, none, sent, false⟩

/-- Outcome of one UI handler run in `chat_view`: updated state, whether
`st.rerun()` was reached, whether an error was reported, and the HTTP call
made (if any). -/
structure ChatStep where
  state : SessionState
  rerun : Bool
  errorReported : Bool
  sent : Option SentCall
deriving DecidableEq, Repr

/-- The `st.chat_input` handler (`src/streamlit_chat_branch.py:570-583`):
append the user message, run `process_message`, and when the returned
response is truthy append it as an assistant message, mark the conversation
list stale and rerun. -/
def handle_chat_input (s : SessionState) (user_prompt : String)
    (oracle : Option StartData) : ChatStep :=
  let s1 := { s with messages := s.messages ++ [⟨Role.user, user_prompt⟩] }
  let pr := process_message s1 user_prompt oracle
  if pyTruthy pr.response then
    ⟨{ pr.state with
        messages := pr.state.messages ++ [⟨Role.assistant, pr.response.getD ""⟩],
        conversations_loaded := false },
      true, pr.errorReported, some pr.sent⟩
  else ⟨pr.state, false, pr.errorReported, some pr.sent⟩

/-- The automatic greeting (`src/streamlit_chat_branch.py:559-567`): when
there are no messages and no truthy active conversation, send "Hello"; on a
truthy response append only the assistant message, adopt the returned id,
mark the list stale and rerun. -/
def greeting_step (s : SessionState) (oracle : Option StartData) : ChatStep :=
  if s.messages.isEmpty && !(pyTruthy s.current_conversation_id) then
    let pr := process_message s "Hello" oracle
    if pyTruthy pr.response then
      ⟨{ pr.state with
          messages := pr.state.messages ++ [⟨Role.assistant, pr.response.getD ""⟩],
          current_conversation_id := pr.conv_id,
          conversations_loaded := false },
        true, pr.errorReported, some pr.sent⟩
    else ⟨pr.state, false, pr.errorReported, some pr.sent⟩
  else ⟨s, false, false, none⟩

/-- C1: from a session with `activeConversationId = none`, a successful
`sendMessage(text)` (start call returning `conversation_id = cid` and a
non-empty `response = resp`) moves the session to `Active cid` and appends
exactly the user message followed by one assistant message holding the
returned response. -/
theorem C1_start_transition (s : SessionState) (text cid resp : String) (extra : Bool)
    (hnone : s.current_conversation_id = none) (hresp : resp ≠ "") :
    (handle_chat_input s text (some ⟨some cid, some resp, extra⟩)).state.current_conversation_id
        = some cid ∧
    (handle_chat_input s text (some ⟨some cid, some resp, extra⟩)).state.messages
        = s.messages ++ [⟨Role.user, text⟩, ⟨Role.assistant, resp⟩] := by
  have hne : resp.isEmpty = false := by
    by_contra h
    exact hresp ((String.isEmpty_iff resp).mp (by simpa using h))
  simp [handle_chat_input, process_message, StartData.truthy, hnone, hne]

/-- Witness for C1 at the spec scenario: empty session, `sendMessage "Hello"`
answered with `{conversation_id: "k1", response: "Hi there"}`. -/
theorem C1_start_transition_witness :
    (handle_chat_input ⟨"c1", "b1", "c1", none, [], [], true⟩ "Hello"
        (some ⟨some "k1", some "Hi there", false⟩)).state.current_conversation_id
      = some "k1" ∧
    (handle_chat_input ⟨"c1", "b1", "c1", none, [], [], true⟩ "Hello"
        (some ⟨some "k1", some "Hi there", false⟩)).state.messages
      = [⟨Role.user, "Hello"⟩, ⟨Role.assistant, "Hi there"⟩] :=
  C1_start_transition ⟨"c1", "b1", "c1", none, [], [], true⟩ "Hello" "k1" "Hi there" false
    rfl (by decide)

/-- The parsed `data` dict returned by `fetch_conversation_detail`
(`src/streamlit_chat_branch.py:110-120`): `messages` models
`conversation.get("messages", [])` with `none` for an absent key;
`extraTruthy` records further keys, so dict truthiness is exact. -/
structure ConversationDetail where
  messages : Option (List Message)
  extraTruthy : Bool
deriving DecidableEq, Repr

/-- Python truthiness of the detail dict (`if conversation:`). -/
def ConversationDetail.truthy (c : ConversationDetail) : Bool :=
  c.messages.isSome || c.extraTruthy

/-- `load_conversation` (`src/streamlit_chat_branch.py:163-170`): on a truthy
fetched detail, set the active id and replace `messages` wholesale with the
server's list (rebuilt dict-by-dict by the comprehension); return whether
the load succeeded.  `fetchOutcome = none` models a fetch exception. -/
def load_conversation (s : SessionState) (conversation_id : String)
    (fetchOutcome : Option ConversationDetail) : SessionState × Bool :=
  match fetchOutcome with
  | none => (s, false)
  | some conversation =>
    if conversation.truthy then
      ({ s with
          current_conversation_id := some conversation_id,
          messages := (conversation.messages.getD []).map
            (fun msg => ⟨msg.role, msg.content⟩) },
        true)
    else (s, false)

/-- `start_new_chat` (`src/streamlit_chat_branch.py:199-208`): archive the
current conversation when one is set (best effort — `archiveOutcome` is the
`archive_conversation` result, `false` meaning a reported error), then
unconditionally clear `messages`, reset the active id and mark the
conversation list stale.  Returns the new state and whether an archive
error was reported. -/
def start_new_chat (s : SessionState) (archiveOutcome : Bool) :
    SessionState × Bool :=
  let archiveErrorReported := pyTruthy s.current_conversation_id && !archiveOutcome
  ({ s with
      messages := [],
      current_conversation_id := none,
      conversations_loaded := false },
    archiveErrorReported)

/-- Outcome of the retitle save button handler. -/
structure TitleStep where
  state : SessionState
  edit_flag : Bool
  rerun : Bool
  errorReported : Bool
deriving DecidableEq, Repr

/-- The retitle save handler (`src/streamlit_chat_branch.py:338-343`): when
the new title is non-empty and differs from the shown one, call
`update_conversation_title` (`updateOutcome` = its result; `false` means a
reported error); on success leave edit mode, mark the list stale and rerun,
otherwise leave everything unchanged. -/
def save_title_handler (s : SessionState) (edit_flag : Bool)
    (new_title title_str : String) (updateOutcome : Bool) : TitleStep :=
  if !new_title.isEmpty && new_title ≠ title_str then
    if updateOutcome then
      ⟨{ s with conversations_loaded := false }, false, true, false⟩
    else ⟨s, edit_flag, false, true⟩
  else ⟨s, edit_flag, false, false⟩

/-- C2: after a successful `loadConversation(id)`, the session's messages
equal exactly the server's returned message list (prior local messages are
discarded) and the active id equals `id`. -/
theorem C2_load_replaces (s : SessionState) (conversation_id : String)
    (c : ConversationDetail)
    (hsucc : (load_conversation s conversation_id (some c)).2 = true) :
    (load_conversation s conversation_id (some c)).1.messages = c.messages.getD [] ∧
    (load_conversation s conversation_id (some c)).1.current_conversation_id
      = some conversation_id := by
  have hmap : ∀ l : List Message, l.map (fun msg => (⟨msg.role, msg.content⟩ : Message)) = l := by
    intro l
    have : (fun msg : Message => (⟨msg.role, msg.content⟩ : Message)) = id := by
      funext m; cases m; rfl
    simp [this]
  by_cases ht : c.truthy
  · simp [load_conversation, ht, hmap]
  · simp [load_conversation, ht] at hsucc

/-- Witness for C2: loading conversation "k1" whose detail holds one user
message replaces the local transcript with exactly that list. -/
theorem C2_load_replaces_witness :
    (load_conversation
        ⟨"c1", "b1", "c1", some "old", [⟨Role.user, "stale"⟩], [], true⟩ "k1"
        (some ⟨some [⟨Role.user, "hi"⟩, ⟨Role.assistant, "hello"⟩], false⟩)).1.messages
      = [⟨Role.user, "hi"⟩, ⟨Role.assistant, "hello"⟩] ∧
    (load_conversation
        ⟨"c1", "b1", "c1", some "old", [⟨Role.user, "stale"⟩], [], true⟩ "k1"
        (some ⟨some [⟨Role.user, "hi"⟩, ⟨Role.assistant, "hello"⟩], false⟩)).1.current_conversation_id
      = some "k1" :=
  C2_load_replaces ⟨"c1", "b1", "c1", some "old", [⟨Role.user, "stale"⟩], [], true⟩ "k1"
    ⟨some [⟨Role.user, "hi"⟩, ⟨Role.assistant, "hello"⟩], false⟩ rfl

/-- `process_message` never touches `conversations_loaded`: it mutates only
`current_conversation_id` (its callers are the ones that mark the list
stale). -/
theorem process_message_loaded (s : SessionState) (m : String)
    (o : Option StartData) :
    (process_message s m o).state.conversations_loaded = s.conversations_loaded := by
  rcases o with _ | r
  · simp only [process_message]
    split <;> rfl
  · simp only [process_message]
    split <;> split <;> rfl

/-- C3 counterexample: `start_new_chat` on a session with an active
conversation and a loaded cache, with the archive request failing (error
reported), still flips `conversations_loaded` to `false` — a failed
mutation does invalidate the cache, contradicting the claim. -/
theorem C3_cache_counterexample :
    (⟨"c1", "b1", "c1", some "id1", [⟨Role.user, "x"⟩], [], true⟩ : SessionState).conversations_loaded
        = true ∧
    (start_new_chat ⟨"c1", "b1", "c1", some "id1", [⟨Role.user, "x"⟩], [], true⟩ false).2 = true ∧
    (start_new_chat ⟨"c1", "b1", "c1", some "id1", [⟨Role.user, "x"⟩], [], true⟩ false).1.conversations_loaded
        = false := by
  refine ⟨rfl, ?_, rfl⟩
  decide

/-- C3 amended: the cache's loaded flag is cleared exactly by (a) a send
(chat input or greeting) whose response is truthy — a failed send, or a
successful one with an empty response, leaves it unchanged — (b) a
successful retitle of a changed non-empty title, and (c) `start_new_chat`
unconditionally, whether or not its archive request succeeds. -/
theorem C3_cache_invalidation_amended :
    (∀ (s : SessionState) (text : String) (oracle : Option StartData),
      (handle_chat_input s text oracle).state.conversations_loaded
        = if (handle_chat_input s text oracle).rerun then false
          else s.conversations_loaded) ∧
    (∀ (s : SessionState) (oracle : Option StartData),
      (greeting_step s oracle).state.conversations_loaded
        = if (greeting_step s oracle).rerun then false
          else s.conversations_loaded) ∧
    (∀ (s : SessionState) (e : Bool) (nt ts : String) (u : Bool),
      (save_title_handler s e nt ts u).state.conversations_loaded
        = if (save_title_handler s e nt ts u).rerun then false
          else s.conversations_loaded) ∧
    (∀ (s : SessionState) (b : Bool),
      (start_new_chat s b).1.conversations_loaded = false) := by
  refine ⟨?_, ?_, ?_, ?_⟩
  · intro s text oracle
    simp only [handle_chat_input]
    split
    · simp
    · simp [process_message_loaded]
  · intro s oracle
    simp only [greeting_step]
    split
    · split
      · simp
      · simp [process_message_loaded]
    · simp
  · intro s e nt ts u
    simp only [save_title_handler]
    split <;> [split <;> simp; simp]
  · intro s b
    simp [start_new_chat]

/-- C4 counterexample: a `sendMessage("Hello")` from the Empty state whose
start call raises leaves the user message in the transcript — `messages`
does not remain empty as the claim states. -/
theorem C4_empty_failure_counterexample :
    ¬ ((handle_chat_input ⟨"c1", "b1", "c1", none, [], [], true⟩ "Hello" none).state.messages
        = []) := by
  decide

/-- C4 amended: a `sendMessage(text)` from the Empty state whose start call
fails reports an error and keeps `activeConversationId = none`, but
`messages` holds the optimistically appended user message rather than
staying empty; no assistant message is appended and no rerun happens. -/
theorem C4_empty_failure_amended (s : SessionState) (text : String)
    (hid : s.current_conversation_id = none) (hmsg : s.messages = []) :
    (handle_chat_input s text none).errorReported = true ∧
    (handle_chat_input s text none).state.current_conversation_id = none ∧
    (handle_chat_input s text none).state.messages = [⟨Role.user, text⟩] ∧
    (handle_chat_input s text none).rerun = false := by
  simp [handle_chat_input, process_message, hid, hmsg]

/-- Witness for C4 (amended) at a concrete empty session. -/
theorem C4_empty_failure_amended_witness :
    (handle_chat_input ⟨"c1", "b1", "c1", none, [], [], true⟩ "Hello" none).errorReported = true ∧
    (handle_chat_input ⟨"c1", "b1", "c1", none, [], [], true⟩ "Hello" none).state.current_conversation_id
        = none ∧
    (handle_chat_input ⟨"c1", "b1", "c1", none, [], [], true⟩ "Hello" none).state.messages
        = [⟨Role.user, "Hello"⟩] ∧
    (handle_chat_input ⟨"c1", "b1", "c1", none, [], [], true⟩ "Hello" none).rerun = false :=
  C4_empty_failure_amended ⟨"c1", "b1", "c1", none, [], [], true⟩ "Hello" rfl rfl

/-- C5: `startNewChat` with an active conversation whose archive request
fails still reports the error and resets the session: the active id becomes
`none` and the transcript clears. -/
theorem C5_archive_failure_nonblocking (s : SessionState)
    (hactive : pyTruthy s.current_conversation_id = true) :
    (start_new_chat s false).2 = true ∧
    (start_new_chat s false).1.current_conversation_id = none ∧
    (start_new_chat s false).1.messages = [] := by
  simp [start_new_chat, hactive]

/-- Witness for C5 at a concrete active session. -/
theorem C5_archive_failure_nonblocking_witness :
    (start_new_chat ⟨"c1", "b1", "c1", some "id9", [⟨Role.user, "x"⟩], [], true⟩ false).2 = true ∧
    (start_new_chat ⟨"c1", "b1", "c1", some "id9", [⟨Role.user, "x"⟩], [], true⟩ false).1.current_conversation_id
        = none ∧
    (start_new_chat ⟨"c1", "b1", "c1", some "id9", [⟨Role.user, "x"⟩], [], true⟩ false).1.messages
        = [] :=
  C5_archive_failure_nonblocking ⟨"c1", "b1", "c1", some "id9", [⟨Role.user, "x"⟩], [], true⟩
    (by decide)

/-- URL query parameters read by `init_state`
(`src/streamlit_chat_branch.py:76-94`); `none` models an absent parameter
(the `.get` default is the empty string). -/
structure QueryParams where
  client_id : Option String
  branch_id : Option String
  user_id : Option String
deriving DecidableEq, Repr

/-- `init_state` on a fresh session: ids come from the query parameters
(defaulting to `""`, and `user_id` to the client id), the conversation is
unset, the transcript and cached list are empty and the cache unloaded. -/
def init_state (q : QueryParams) : SessionState :=
  let cid := q.client_id.getD ""
  { client_id := cid,
    branch_id := q.branch_id.getD "",
    user_id := q.user_id.getD cid,
    current_conversation_id := none,
    messages := [],
    conversations_list := [],
    conversations_loaded := false }

/-- How a `main` run ends: halted on the missing-parameter error
(`st.error` + `st.stop`), or running `chat_view` on the fresh state. -/
inductive MainOutcome where
  | configError
  | chatView (s : SessionState)
deriving DecidableEq, Repr

/-- The script's `main` (`src/streamlit_chat_branch.py:586-604`), renamed
only because Lean reserves the top-level name `main`: build the session
state, then stop with a fatal configuration error when `client_id` or
`branch_id` is falsy (empty), else run the chat view. -/
def main_entry (q : QueryParams) : MainOutcome :=
  let s := init_state q
  if s.client_id.isEmpty || s.branch_id.isEmpty then MainOutcome.configError
  else MainOutcome.chatView s

/-- `transcribe_audio` (`src/streamlit_chat_branch.py:211-222`).  The parsed
JSON body's `data` key after `data.get("data") or {}`: `none` models an
absent/null/empty (falsy) value; `text` models `.get("text")`.  The whole
oracle is `none` on a `RequestException`.  Returns the optional transcript
and whether `st.error` fired. -/
structure AsrData where
  text : Option String
deriving DecidableEq, Repr

/-- The parsed ASR response body, with its optional truthy `data` dict. -/
structure AsrResponse where
  data : Option AsrData
deriving DecidableEq, Repr

/-- `transcribe_audio` as a function of the HTTP outcome (the audio bytes,
filename and content type only feed the request, never the result). -/
def transcribe_audio (outcome : Option AsrResponse) : Option String × Bool :=
  match outcome with
  | none => (none, true)
  | some p =>
    match p.data with
    | none => (none, false)
    | some d => (d.text, false)

/-- `synthesize_speech` (`src/streamlit_chat_branch.py:225-243`): on success
buffer the streamed chunks (skipping falsy empty ones) and play them; on a
`RequestException` report an error.  The session state is returned
untouched in every case, alongside the played audio and the error flag. -/
def synthesize_speech (s : SessionState)
    (outcome : Option (List (List Nat))) :
    SessionState × Option (List Nat) × Bool :=
  match outcome with
  | some chunks => (s, some ((chunks.filter (fun c => !c.isEmpty)).flatten), false)
  | none => (s, none, true)

/-- C6: when `client_id` or `branch_id` is absent or empty at bootstrap,
`main` halts on the fatal configuration error before any chat view; when
both are present and non-empty, the chat view runs on the fresh state. -/
theorem C6_bootstrap_validation (q : QueryParams) :
    ((q.client_id.getD "" = "" ∨ q.branch_id.getD "" = "") →
      main_entry q = MainOutcome.configError) ∧
    (q.client_id.getD "" ≠ "" → q.branch_id.getD "" ≠ "" →
      main_entry q = MainOutcome.chatView (init_state q)) := by
  constructor
  · intro h
    rcases h with h | h <;>
      simp [main_entry, init_state, String.isEmpty_iff, h]
  · intro h1 h2
    simp [main_entry, init_state, String.isEmpty_iff, h1, h2]

/-- Witness for C6: a missing `branch_id` halts the session; both ids
present run the chat view. -/
theorem C6_bootstrap_validation_witness :
    main_entry ⟨some "c1", none, none⟩ = MainOutcome.configError ∧
    main_entry ⟨some "c1", some "b1", none⟩
      = MainOutcome.chatView (init_state ⟨some "c1", some "b1", none⟩) :=
  ⟨(C6_bootstrap_validation ⟨some "c1", none, none⟩).1 (Or.inr rfl),
   (C6_bootstrap_validation ⟨some "c1", some "b1", none⟩).2 (by decide) (by decide)⟩

/-- C7: a failed `synthesize` call (transport error, reported) leaves the
session's `messages` and `activeConversationId` unchanged — speech
synthesis never mutates the chat transcript state. -/
theorem C7_synthesize_failure_frame (s : SessionState) :
    (synthesize_speech s none).1.messages = s.messages ∧
    (synthesize_speech s none).1.current_conversation_id
      = s.current_conversation_id ∧
    (synthesize_speech s none).2.2 = true := by
  simp [synthesize_speech]

/-- C8: `transcribe_audio` returns `none` (no raise) on a transport failure;
a successful response with an absent/empty payload, or with no `text`
field, yields `none` with no error reported; a successful response with a
transcript yields exactly that text. -/
theorem C8_transcribe_outcomes :
    ((transcribe_audio none).1 = none ∧ (transcribe_audio none).2 = true) ∧
    (∀ p : AsrResponse, p.data = none → transcribe_audio (some p) = (none, false)) ∧
    (∀ (p : AsrResponse) (d : AsrData), p.data = some d → d.text = none →
      transcribe_audio (some p) = (none, false)) ∧
    (∀ (p : AsrResponse) (d : AsrData) (t : String), p.data = some d → d.text = some t →
      transcribe_audio (some p) = (some t, false)) := by
  refine ⟨⟨rfl, rfl⟩, ?_, ?_, ?_⟩
  · intro p hp
    simp [transcribe_audio, hp]
  · intro p d hp ht
    simp [transcribe_audio, hp, ht]
  · intro p d t hp ht
    simp [transcribe_audio, hp, ht]

/-- Witness for C8 at concrete payloads: empty payload and absent text are
quiet no-ops, and a transcript comes back verbatim. -/
theorem C8_transcribe_outcomes_witness :
    transcribe_audio (some ⟨none⟩) = (none, false) ∧
    transcribe_audio (some ⟨some ⟨none⟩⟩) = (none, false) ∧
    transcribe_audio (some ⟨some ⟨some "hola"⟩⟩) = (some "hola", false) :=
  ⟨C8_transcribe_outcomes.2.1 ⟨none⟩ rfl,
   C8_transcribe_outcomes.2.2.1 ⟨some ⟨none⟩⟩ ⟨none⟩ rfl rfl,
   C8_transcribe_outcomes.2.2.2 ⟨some ⟨some "hola"⟩⟩ ⟨some "hola"⟩ "hola" rfl rfl⟩

/-- C9: rendering with no messages and no active conversation automatically
sends "Hello"; on success the transcript holds only the assistant response
(no user entry), the returned id becomes active, and the view reruns — the
Empty state does not persist across a successful render. -/
theorem C9_auto_greeting (s : SessionState) (cid resp : String) (extra : Bool)
    (hmsg : s.messages = []) (hid : s.current_conversation_id = none)
    (hresp : resp ≠ "") :
    (greeting_step s (some ⟨some cid, some resp, extra⟩)).sent
        = some (SentCall.startConv s.user_id "Hello" s.client_id s.branch_id) ∧
    (greeting_step s (some ⟨some cid, some resp, extra⟩)).state.messages
        = [⟨Role.assistant, resp⟩] ∧
    (greeting_step s (some ⟨some cid, some resp, extra⟩)).state.current_conversation_id
        = some cid ∧
    (greeting_step s (some ⟨some cid, some resp, extra⟩)).rerun = true := by
  have hne : resp.isEmpty = false := by
    by_contra h
    exact hresp ((String.isEmpty_iff resp).mp (by simpa using h))
  simp [greeting_step, process_message, StartData.truthy, hmsg, hid, hne]

/-- Witness for C9 at a concrete fresh session. -/
theorem C9_auto_greeting_witness :
    (greeting_step ⟨"c1", "b1", "u1", none, [], [], false⟩
        (some ⟨some "k1", some "Hi!", false⟩)).sent
      = some (SentCall.startConv "u1" "Hello" "c1" "b1") ∧
    (greeting_step ⟨"c1", "b1", "u1", none, [], [], false⟩
        (some ⟨some "k1", some "Hi!", false⟩)).state.messages
      = [⟨Role.assistant, "Hi!"⟩] ∧
    (greeting_step ⟨"c1", "b1", "u1", none, [], [], false⟩
        (some ⟨some "k1", some "Hi!", false⟩)).state.current_conversation_id
      = some "k1" ∧
    (greeting_step ⟨"c1", "b1", "u1", none, [], [], false⟩
        (some ⟨some "k1", some "Hi!", false⟩)).rerun = true :=
  C9_auto_greeting ⟨"c1", "b1", "u1", none, [], [], false⟩ "k1" "Hi!" false rfl rfl
    (by decide)

/-- C10: a start call from the Empty state succeeding with an absent or
empty `response` still adopts the returned `conversation_id`, while the
chat-input caller appends no assistant message, leaves the cache flag
untouched and does not rerun — the session becomes active with no
assistant reply recorded. -/
theorem C10_empty_response_adopts_id (s : SessionState) (text cid : String)
    (ro : Option String) (extra : Bool)
    (hid : s.current_conversation_id = none)
    (hro : ro = none ∨ ro = some "") :
    (handle_chat_input s text (some ⟨some cid, ro, extra⟩)).state.current_conversation_id
        = some cid ∧
    (handle_chat_input s text (some ⟨some cid, ro, extra⟩)).state.messages
        = s.messages ++ [⟨Role.user, text⟩] ∧
    (handle_chat_input s text (some ⟨some cid, ro, extra⟩)).state.conversations_loaded
        = s.conversations_loaded ∧
    (handle_chat_input s text (some ⟨some cid, ro, extra⟩)).rerun = false := by
  have he : "".isEmpty = true := by decide
  rcases hro with h | h <;>
    simp [handle_chat_input, process_message, StartData.truthy, hid, h, pyTruthy, he]

/-- Witness for C10: a start answered with `conversation_id = "k1"` and no
response leaves only the user message but activates "k1". -/
theorem C10_empty_response_adopts_id_witness :
    (handle_chat_input ⟨"c1", "b1", "c1", none, [], [], true⟩ "Hello"
        (some ⟨some "k1", none, false⟩)).state.current_conversation_id = some "k1" ∧
    (handle_chat_input ⟨"c1", "b1", "c1", none, [], [], true⟩ "Hello"
        (some ⟨some "k1", none, false⟩)).state.messages = [⟨Role.user, "Hello"⟩] ∧
    (handle_chat_input ⟨"c1", "b1", "c1", none, [], [], true⟩ "Hello"
        (some ⟨some "k1", none, false⟩)).state.conversations_loaded = true ∧
    (handle_chat_input ⟨"c1", "b1", "c1", none, [], [], true⟩ "Hello"
        (some ⟨some "k1", none, false⟩)).rerun = false :=
  C10_empty_response_adopts_id ⟨"c1", "b1", "c1", none, [], [], true⟩ "Hello" "k1" none
    false rfl (Or.inl rfl)
